import Mathlib

/-!
Verification of the retux Gateway client and HTTP client
(src/retux/api/gateway.py and src/retux/api/http.py).

The embedding works at the level of parsed JSON values: the wire text layer
(json.dumps / json.loads between a value and its canonical JSON text) is a
faithful serialization of these values, so dumps followed by loads is modelled
as the identity on the Json type, and a frame whose bytes fail to parse at all
is modelled by a dedicated constructor of RawFrame below.

Python runtime conventions used throughout the embedding:
- Python None on an optional field is Option.none.
- Python exceptions are the PyExc type; a function that can raise returns
  Except PyExc or records the exception in its result structure.
- Truthiness (if x:) of a JSON value follows Python: None, False, 0, empty
  string, empty list and empty dict are falsy.
-/

/-- A parsed JSON value. Numbers are rationals (Python floats/ints as used by
the code under analysis are exact decimals such as 41250 or 41.25). -/
inductive Json where
  | null : Json
  | bool (b : Bool) : Json
  | num (q : ℚ) : Json
  | str (s : String) : Json
  | arr (xs : List Json) : Json
  | obj (fields : List (String × Json)) : Json

/-- Python exception classes observed by the embedded code paths.
ClassValidation wrappers that some cattrs configurations add around
structuring failures are folded into the structure-level constructors here;
every one of them is distinct from connectionClosed, which is the only
exception the gateway receive path catches. -/
inductive PyExc where
  | connectionClosed : PyExc
  | jsonDecodeError : PyExc
  | keyError : PyExc
  | valueError : PyExc
  | typeError : PyExc
  | attributeError : PyExc
  | nameError : PyExc
  | structureHandlerNotFound : PyExc
  | httpException (body : Json) : PyExc
  | osError (errno : Int) : PyExc

/-- First value for a key in a JSON object field list (Python dict lookup;
a parsed JSON object has unique keys). -/
def jlookup (fields : List (String × Json)) (k : String) : Option Json :=
  match fields with
  | [] => none
  | (k', v) :: rest => if k' == k then some v else jlookup rest k

/-- Python truthiness of a JSON value. -/
def pyTruthy : Json → Bool
  | .null => false
  | .bool b => b
  | .num q => q != 0
  | .str s => s != ""
  | .arr xs => !xs.isEmpty
  | .obj fs => !fs.isEmpty

/-- Python truthiness of an optional JSON value (None is falsy). -/
def pyTruthyOpt : Option Json → Bool
  | none => false
  | some j => pyTruthy j

/-- The gateway payload envelope, src/retux/api/gateway.py class
_GatewayPayload: op (converted to int), d, s, t, the last three defaulting
to None. -/
structure GatewayPayload where
  op : Int
  d : Option Json := none
  s : Option Int := none
  t : Option String := none

/-- Gateway connection metadata, class _GatewayMeta (gateway.py:20). The
session id is stored as whatever JSON value the READY data carried (Python
performs no type check on the assignment), None initially. -/
structure GatewayMeta where
  version : Int
  encoding : String
  compress : Option String := none
  heartbeat_interval : Option ℚ := none
  session_id : Option Json := none
  seq : Option Int := none

/-- Gateway operation codes, class _GatewayOpCode (gateway.py:37). -/
inductive GatewayOpCode where
  | dispatch | heartbeat | identify | presenceUpdate | voiceStateUpdate
  | resume | reconnect | requestGuildMembers | invalidSession | hello
  | heartbeatAck
deriving DecidableEq

/-- The _GatewayOpCode(n) enum call: none models the ValueError raised on an
integer that is no opcode (5 and anything outside 0..11). -/
def GatewayOpCode.ofInt (n : Int) : Option GatewayOpCode :=
  if n = 0 then some .dispatch
  else if n = 1 then some .heartbeat
  else if n = 2 then some .identify
  else if n = 3 then some .presenceUpdate
  else if n = 4 then some .voiceStateUpdate
  else if n = 6 then some .resume
  else if n = 7 then some .reconnect
  else if n = 8 then some .requestGuildMembers
  else if n = 9 then some .invalidSession
  else if n = 10 then some .hello
  else if n = 11 then some .heartbeatAck
  else none

/-- Static client configuration: the constructor arguments token and intents
(gateway.py:188), sys.platform, and an abstraction of which attribute names
resolve on the package object returned by the dunder import in _dispatch
(gateway.py:384). -/
structure GatewayCfg where
  token : String
  intents : Int
  platform : String
  resources : String → Bool

/-- GatewayClient._identify (gateway.py:395). -/
def identifyPayload (cfg : GatewayCfg) : GatewayPayload :=
  { op := 2
  , d := some (.obj
      [ ("token", .str cfg.token)
      , ("intents", .num (cfg.intents : ℚ))
      , ("properties", .obj
          [ ("os", .str cfg.platform)
          , ("browser", .str "retux")
          , ("device", .str "retux") ]) ]) }

/-- GatewayClient._resume (gateway.py:408): token, stored session id (null
when None) and stored sequence (null when None). -/
def resumePayload (cfg : GatewayCfg) (meta : GatewayMeta) : GatewayPayload :=
  { op := 6
  , d := some (.obj
      [ ("token", .str cfg.token)
      , ("session_id", match meta.session_id with | none => Json.null | some j => j)
      , ("seq", match meta.seq with | none => Json.null | some n => Json.num (n : ℚ)) ]) }

/-- Python str.capitalize: first character upper-cased, the rest lower-cased. -/
def pyCapitalize (s : String) : String :=
  match s.toList with
  | [] => ""
  | c :: rest => String.mk (c.toUpper :: rest.map Char.toLower)

/-- The event-name transformation in _dispatch (gateway.py:383): split on
underscores, drop the last part, capitalize each remaining part, join. -/
def cleanEventName (name : String) : String :=
  String.join (((name.splitOn "_").dropLast).map pyCapitalize)

/-- The value stored under the data key of _dispatched. The json constructor
exists only to state the specification claim that the payload data is handed
over verbatim; the code itself only ever stores a resource class or the
MISSING sentinel. -/
inductive SinkData where
  | json (d : Option Json)
  | resource (className : String)
  | missing

/-- The dict assigned to _dispatched (gateway.py:389). -/
structure SinkEntry where
  name : Option String
  data : SinkData

/-- GatewayClient._dispatch (gateway.py:363): computes the cleaned event name
and looks the resource up as an attribute of the imported package object,
falling back to the MISSING sentinel on AttributeError. A None name is also
covered by that fallback, because None.split raises AttributeError inside the
same try. The data argument is received but never stored: the entry holds the
resolved resource (or MISSING), not the payload data. -/
def dispatchEntry (cfg : GatewayCfg) (name : Option String) (_data : Option Json) : SinkEntry :=
  match name with
  | none => { name := none, data := .missing }
  | some nm =>
    let clean := cleanEventName nm
    { name := some nm
    , data := if cfg.resources clean then .resource clean else .missing }

/-- Effect of one _track call: updated metadata, payloads handed to _send in
order, the _dispatched assignment if any, whether conn.aclose() and
reconnect() were invoked, and an exception escaping the call if any. The
wall-clock _last_ack bookkeeping of the HEARTBEAT_ACK arm is not modelled. -/
structure TrackResult where
  meta : GatewayMeta
  sends : List GatewayPayload := []
  dispatched : Option SinkEntry := none
  closedConn : Bool := false
  reconnected : Bool := false
  exc : Option PyExc := none

/-- Python subscript data[k] on an optional JSON value: None and non-dict
values raise TypeError, a dict without the key raises KeyError. -/
def pySubscript (d : Option Json) (k : String) : Except PyExc Json :=
  match d with
  | some (.obj fs) =>
    match jlookup fs k with
    | some v => .ok v
    | none => .error .keyError
  | some _ => .error .typeError
  | none => .error .typeError

/-- The opcode match of GatewayClient._track (gateway.py:315). The enum
conversion raises ValueError on unknown opcodes; valid opcodes with no case
clause fall through silently. In the HELLO arm, _identify is awaited before
heartbeat_interval is read out of the data, so the identify payload is sent
even when that read then raises; bool divides like an int in Python. -/
def trackFirst (cfg : GatewayCfg) (meta : GatewayMeta) (p : GatewayPayload) : TrackResult :=
  match GatewayOpCode.ofInt p.op with
  | none => { meta := meta, exc := some .valueError }
  | some code =>
    match code with
    | .hello =>
      if pyTruthyOpt meta.session_id then
        { meta := meta, sends := [resumePayload cfg meta] }
      else
        match pySubscript p.d "heartbeat_interval" with
        | .ok (.num q) =>
          { meta := { meta with heartbeat_interval := some (q / 1000) }
          , sends := [identifyPayload cfg] }
        | .ok (.bool b) =>
          { meta := { meta with heartbeat_interval := some ((if b then 1 else 0) / 1000) }
          , sends := [identifyPayload cfg] }
        | .ok _ => { meta := meta, sends := [identifyPayload cfg], exc := some .typeError }
        | .error e => { meta := meta, sends := [identifyPayload cfg], exc := some e }
    | .heartbeatAck => { meta := meta }
    | .invalidSession =>
      { meta := { meta with session_id := none }, closedConn := true, reconnected := true }
    | .reconnect =>
      if pyTruthyOpt p.d then { meta := meta, sends := [resumePayload cfg meta] }
      else { meta := meta, closedConn := true, reconnected := true }
    | .dispatch => { meta := meta, dispatched := some (dispatchEntry cfg p.t p.d) }
    | _ => { meta := meta }

/-- The event-name match of GatewayClient._track (gateway.py:351): RESUMED
only logs; READY stores data subscript session_id into the metadata and then
the payload sequence; any other (or absent) name does nothing. -/
def trackSecond (meta : GatewayMeta) (p : GatewayPayload) : GatewayMeta × Option PyExc :=
  match p.t with
  | some "RESUMED" => (meta, none)
  | some "READY" =>
    match pySubscript p.d "session_id" with
    | .ok v => ({ meta with session_id := some v, seq := p.s }, none)
    | .error e => (meta, some e)
  | _ => (meta, none)

/-- GatewayClient._track (gateway.py:302): the opcode match followed by the
event-name match; the latter runs only when the former raised nothing. -/
def track (cfg : GatewayCfg) (meta : GatewayMeta) (p : GatewayPayload) : TrackResult :=
  let r := trackFirst cfg meta p
  match r.exc with
  | some _ => r
  | none =>
    let res := trackSecond r.meta p
    { r with meta := res.1, exc := res.2 }

/-- Number of payloads in a send list carrying a given opcode. -/
def countOp (k : Int) (l : List GatewayPayload) : Nat :=
  (l.filter (fun q => q.op == k)).length

/-- C1: for every HELLO payload processed by _track, the absence of a cached
(truthy) session id produces exactly one IDENTIFY send and no RESUME, and a
cached session id produces exactly one RESUME send and no IDENTIFY. -/
theorem hello_identify_or_resume (cfg : GatewayCfg) (meta : GatewayMeta)
    (p : GatewayPayload) (hop : p.op = 10) :
    (pyTruthyOpt meta.session_id = false →
        countOp 2 (track cfg meta p).sends = 1
          ∧ countOp 6 (track cfg meta p).sends = 0)
    ∧ (pyTruthyOpt meta.session_id = true →
        countOp 6 (track cfg meta p).sends = 1
          ∧ countOp 2 (track cfg meta p).sends = 0) := by
  have hofInt : GatewayOpCode.ofInt p.op = some .hello := by
    rw [hop]; rfl
  have hsends : (track cfg meta p).sends = (trackFirst cfg meta p).sends := by
    cases h : (trackFirst cfg meta p).exc <;> simp [track, h]
  constructor
  · intro hsid
    have h1 : (trackFirst cfg meta p).sends = [identifyPayload cfg] := by
      cases hsub : pySubscript p.d "heartbeat_interval" with
      | error e => simp [trackFirst, hofInt, hsid, hsub]
      | ok v => cases v <;> simp [trackFirst, hofInt, hsid, hsub]
    rw [hsends, h1]
    exact ⟨rfl, rfl⟩
  · intro hsid
    have h1 : (trackFirst cfg meta p).sends = [resumePayload cfg meta] := by
      simp [trackFirst, hofInt, hsid]
    rw [hsends, h1]
    exact ⟨rfl, rfl⟩

/-- Witness for C1: a concrete HELLO with no cached session id yields one
IDENTIFY and no RESUME. -/
theorem hello_identify_or_resume_witness :
    countOp 2 (track
      { token := "bot-token", intents := 513, platform := "linux"
      , resources := fun _ => false }
      { version := 10, encoding := "json" }
      { op := 10, d := some (.obj [("heartbeat_interval", .num 41250)]) }).sends = 1 :=
  ((hello_identify_or_resume
    { token := "bot-token", intents := 513, platform := "linux"
    , resources := fun _ => false }
    { version := 10, encoding := "json" }
    { op := 10, d := some (.obj [("heartbeat_interval", .num 41250)]) }
    rfl).1 rfl).1

/-- Concrete configuration and metadata used by the evaluation theorems. -/
def cfg0 : GatewayCfg :=
  { token := "bot-token", intents := 513, platform := "linux"
  , resources := fun _ => false }

def meta0 : GatewayMeta := { version := 10, encoding := "json" }

/-- A concrete non-READY DISPATCH frame carrying sequence number 42. -/
def pMsg : GatewayPayload :=
  { op := 0, d := some (.obj [("content", .str "hey")])
  , s := some 42, t := some "MESSAGE_CREATE" }

/-- C3: the claim says every processed DISPATCH advances the stored sequence
to the payload sequence. The code only assigns the sequence inside the READY
arm of the event-name match (gateway.py:358), so processing this concrete
MESSAGE_CREATE dispatch with sequence 42 leaves the stored sequence at None
instead of 42. -/
theorem dispatch_seq_unchanged_eval :
    (track cfg0 meta0 pMsg).meta.seq = none
      ∧ pMsg.s = some 42
      ∧ (track cfg0 meta0 pMsg).meta.seq ≠ pMsg.s := by
  refine ⟨rfl, rfl, ?_⟩
  intro h
  rw [show (track cfg0 meta0 pMsg).meta.seq = none from rfl] at h
  exact Option.noConfusion h

/-- C5 counterexample: on the concrete MESSAGE_CREATE dispatch, the sink
entry stores the MISSING sentinel under the data key (no resource resolves),
not the payload data value, so the data field is not handed over verbatim. -/
theorem dispatch_data_not_verbatim_cex :
    (track cfg0 meta0 pMsg).dispatched
        = some { name := some "MESSAGE_CREATE", data := .missing }
      ∧ SinkData.missing ≠ SinkData.json pMsg.d := by
  refine ⟨rfl, ?_⟩
  intro h
  exact SinkData.noConfusion h

/-- C5 amended: for every DISPATCH payload, _track hands the event name to
the sink verbatim, but the data slot of the sink entry is the resource class
resolved from the cleaned event name (or the MISSING sentinel), never the
payload's data field. -/
theorem dispatch_sink_resource (cfg : GatewayCfg) (meta : GatewayMeta)
    (p : GatewayPayload) (hop : p.op = 0) :
    (track cfg meta p).dispatched = some (dispatchEntry cfg p.t p.d)
      ∧ ((track cfg meta p).dispatched.map SinkEntry.name) = some p.t := by
  have hofInt : GatewayOpCode.ofInt p.op = some .dispatch := by
    rw [hop]; rfl
  have h1 : trackFirst cfg meta p
      = { meta := meta, dispatched := some (dispatchEntry cfg p.t p.d) } := by
    unfold trackFirst
    rw [hofInt]
  have h2 : (track cfg meta p).dispatched = some (dispatchEntry cfg p.t p.d) := by
    simp [track, h1]
  refine ⟨h2, ?_⟩
  rw [h2]
  cases hpt : p.t with
  | none => simp [dispatchEntry]
  | some nm => simp [dispatchEntry]

/-- Witness for C5 amended at the concrete MESSAGE_CREATE dispatch. -/
theorem dispatch_sink_resource_witness :
    (track cfg0 meta0 pMsg).dispatched = some (dispatchEntry cfg0 pMsg.t pMsg.d) :=
  (dispatch_sink_resource cfg0 meta0 pMsg rfl).1

/-- GatewayClient._heartbeat (gateway.py:421): the heartbeat payload is
constructed once, before the while loop, carrying the sequence number stored
in the metadata at that moment; every loop iteration then sends that same
payload object. n is the number of sends observed; later metadata changes
cannot influence the list, which is why it is a plain replicate. -/
def heartbeatRun (m : GatewayMeta) (n : Nat) : List GatewayPayload :=
  let payload : GatewayPayload :=
    { op := 1
    , d := match m.seq with | none => none | some k => some (.num (k : ℚ)) }
  List.replicate n payload

/-- trio.sleep_until takes an absolute deadline on the trio clock, and the
loop passes heartbeat_interval itself as that deadline (gateway.py:428), so
the clock after each wait is the deadline if it is still in the future and
unchanged otherwise. hbSendTime interval k is the clock value at send k,
taking loop entry as clock 0. -/
def hbSendTime (interval : ℚ) : Nat → ℚ
  | 0 => 0
  | n + 1 =>
    let t := hbSendTime interval n
    if t ≤ interval then interval else t

/-- C2: the claim says each sent HEARTBEAT carries the sequence recorded in
the metadata at the time of that send, one send per heartbeat_interval. With
the stored sequence 1 at loop entry and the scenario advancing it to 42
before the second send, the second sent payload still carries 1 (the payload
is built once, before the loop), and with the HELLO interval 41.25s the
second and third sends happen at the same clock instant (sleep_until receives
the interval as an absolute deadline, which is already past). -/
theorem heartbeat_stale_seq_eval :
    (heartbeatRun { version := 10, encoding := "json", seq := some 1 } 2).get? 1
        = some { op := 1, d := some (.num 1) }
      ∧ some (Json.num 1) ≠ some (Json.num 42)
      ∧ hbSendTime (165/4) 2 = 165/4 ∧ hbSendTime (165/4) 3 = 165/4 := by
  refine ⟨rfl, ?_, by norm_num [hbSendTime], by norm_num [hbSendTime]⟩
  intro h
  have h1 : Json.num 1 = Json.num 42 := by
    injection h
  have h2 : (1 : ℚ) = 42 := by
    injection h1
  norm_num at h2

/-! ## Gateway receive path (src/retux/api/gateway.py, _receive) -/

/-- Route methods, class _RouteMethod (http.py:20). -/
inductive RouteMethod where
  | get | post | put | delete
deriving DecidableEq

/-- A route, class _Route (http.py:30): method, path, optional top-level
channel and guild ids. -/
structure Route where
  method : RouteMethod
  path : String
  channel_id : Option String := none
  guild_id : Option String := none
deriving DecidableEq

/-- The event slot of a _Limit: the attrs field declares default=Event, not a
factory (http.py:106), so _Limit() stores the trio.Event class object itself
rather than an instance; request later assigns real instances in the
zero-reset_after branches (http.py:202, 217). Calling is_set/set/wait through
the class object supplies no self argument and raises TypeError. -/
inductive EventObj where
  | cls
  | inst (isSet : Bool)
deriving DecidableEq

/-- event.is_set(): TypeError through the class object, else the flag. -/
def EventObj.isSetEval : EventObj → Except Unit Bool
  | .cls => .error ()
  | .inst b => .ok b

/-- event.set(): TypeError through the class object, else sets the flag. -/
def EventObj.setEval : EventObj → Except Unit EventObj
  | .cls => .error ()
  | .inst _ => .ok (.inst true)

/-- A Python value that is either a number or a string: reset_after starts as
the float 0.0 but a 429 stores the raw header string into it (http.py:253,
258, 264). -/
inductive PyScalar where
  | num (q : ℚ)
  | str (s : String)
deriving DecidableEq

/-- reset_after != 0 in Python: a string is always unequal to the int 0. -/
def PyScalar.neZero : PyScalar → Bool
  | .num q => q != 0
  | .str _ => true

/-- reset_after == 0.0 in Python: a string never equals the float 0.0. -/
def PyScalar.eqZero : PyScalar → Bool
  | .num q => q == 0
  | .str _ => false

/-- Class _Limit (http.py:103). -/
structure HttpLimit where
  event : EventObj
  reset_after : PyScalar
deriving DecidableEq

/-- _Limit() as constructed at http.py:219: the event field holds the class
object (default=Event), reset_after 0.0. -/
def freshLimit : HttpLimit := { event := .cls, reset_after := .num 0 }

/-- HTTPClient state. _global_rate_limit is annotated on the class but never
assigned by __init__ or by anything reachable, so it is an Option whose none
represents the unbound attribute; _buckets and _rate_limits are the dicts
initialized empty in __init__ (http.py:168). The _headers dict derived from
the token and library versions is read by no analysed path and not
modelled. -/
structure HTTPState where
  token : String
  global_rate_limit : Option HttpLimit := none
  buckets : List (Route × String) := []
  rate_limits : List (String × HttpLimit) := []

/-- HTTPClient.__init__ (http.py:151): stores the token and the two empty
dicts; _global_rate_limit is left unbound. -/
def initHTTPState (token : String) : HTTPState :=
  { token := token }

/-- dict.get on the rate-limit dict. -/
def lookupLimit (l : List (String × HttpLimit)) (k : String) : Option HttpLimit :=
  match l with
  | [] => none
  | (k', v) :: rest => if k' == k then some v else lookupLimit rest k

/-- dict write d[k] = v on the rate-limit dict. -/
def setLimit (l : List (String × HttpLimit)) (k : String) (v : HttpLimit) :
    List (String × HttpLimit) :=
  match l with
  | [] => [(k, v)]
  | (k', v') :: rest =>
    if k' == k then (k, v) :: rest else (k', v') :: setLimit rest k v

/-- In-place mutation of the _Limit object stored under a key (attribute
assignment through an alias mutates the stored object). -/
def adjustLimit (l : List (String × HttpLimit)) (k : String)
    (f : HttpLimit → HttpLimit) : List (String × HttpLimit) :=
  match l with
  | [] => []
  | (k', v) :: rest =>
    if k' == k then (k', f v) :: rest else (k', v) :: adjustLimit rest k f

/-- self._buckets.get(route) (http.py:204): dict.get hashes its key even on
an empty dict, and _Route — an attrs define class with generated eq and
frozen False — has its dunder hash set to None per attrs semantics, so the
call raises TypeError (unhashable type) on every invocation. The ok value is
what a hashable key would return (None, or a stored bucket string); that
branch is never reached. -/
def bucketsGet (_l : List (Route × String)) (_r : Route) :
    Except Unit (Option String) :=
  .error ()

/-- The shared argument of _Route.get_bucket: the MISSING sentinel default,
Python None, or a string. request always passes self._buckets.get(route),
which would be None or a string, so the MISSING default branch is dead
there. -/
inductive SharedArg where
  | missingArg
  | noneArg
  | strArg (s : String)

/-- f-string rendering of an optional id: None renders as the text None. -/
def optIdStr : Option String → String
  | none => "None"
  | some s => s

/-- _Route.get_bucket (http.py:77): channel id, guild id, and either the
route path (when shared is the MISSING sentinel) or the shared value
(including None rendered as text). -/
def Route.get_bucket (r : Route) (shared : SharedArg) : String :=
  match shared with
  | .missingArg => optIdStr r.channel_id ++ ":" ++ optIdStr r.guild_id ++ ":" ++ r.path
  | .noneArg => optIdStr r.channel_id ++ ":" ++ optIdStr r.guild_id ++ ":" ++ "None"
  | .strArg s => optIdStr r.channel_id ++ ":" ++ optIdStr r.guild_id ++ ":" ++ s

/-- The argument get_bucket would receive from dict.get's return value. -/
def sharedArgOf : Option String → SharedArg
  | none => .noneArg
  | some s => .strArg s

/-- The rate-limit response headers request reads, as raw header strings
(absent when the server did not send them). -/
structure RespHeaders where
  remaining : Option String := none
  resetAfter : Option String := none
  globalFlag : Option String := none

/-- An HTTP response: status code, the parsed body returned by resp.json(),
and the headers. -/
structure HttpResp where
  status : Int
  body : Json
  headers : RespHeaders := {}

/-- Result of one awaited httpx call (http.py:231): a response, or an
exception raised while building or awaiting the call (OSError or other). -/
inductive TranspOut where
  | resp (r : HttpResp)
  | raised (e : PyExc)

/-- Observable actions of one request call, in order: reaching the httpx
call site with the given route and payload, and timed sleep_until waits. The
Event.wait calls at http.py:199 and 211 would be waits, but trio.Event.wait
accepts no argument and those calls raise TypeError instead, so no wait
action ever arises from them. -/
inductive ReqAct where
  | transport (r : Route) (payload : Json)
  | sleepUntil (deadline : ℚ)

/-- How a request call ends: return json, the implicit return None after the
loop exhausts its attempts, or an uncaught exception. -/
inductive ReqOutcome where
  | retJson (j : Json)
  | retNone
  | raises (e : PyExc)

/-- Final state, action trace in order, and outcome of a request call. -/
structure ReqResult where
  state : HTTPState
  trace : List ReqAct
  outcome : ReqOutcome

/-- bool(headers.get(X-RateLimit-Global)) at http.py:254: absent gives None,
falsy; any non-empty string, including the text false, is truthy. -/
def pyBoolHeader : Option String → Bool
  | none => false
  | some s => s != ""

/-- isinstance(json, dict) and json.get(key) truthiness (http.py:245). -/
def dictTruthyKey (j : Json) (k : String) : Bool :=
  match j with
  | .obj fs =>
    match jlookup fs k with
    | some v => pyTruthy v
    | none => false
  | _ => false

/-- _Route.__repr__ (http.py:75) evaluates __api_url__.self.path. Modelled
from the spec: __api_url__ (defined in the const module, which is absent
from src/) is the API base URL, a string, and a str object has no attribute
self, so formatting a route inside the debug f-string at http.py:242 raises
AttributeError on every call. The code following that line is still embedded
below and would run if the lookup succeeded. -/
def routeRepr (_r : Route) : Except PyExc String :=
  .error .attributeError

/-- json.loads applied to the already-parsed value resp.json() returned
(http.py:243): loads requires a string and raises TypeError on a dict, list,
number, bool or None; on a string it parses the content, supplied by the
environment parameter loadsStr (no analysed execution reaches that case). -/
def pyLoads (loadsStr : String → Except PyExc Json) : Json → Except PyExc Json
  | .str s => loadsStr s
  | _ => .error .typeError

/-- The header value for X-RateLimit-Reset-After with default 0.0
(http.py:253): the raw string when present, the float otherwise. -/
def resetAfterHeader (h : RespHeaders) : PyScalar :=
  match h.resetAfter with
  | some s => .str s
  | none => .num 0

/-- Mutation of the stored _Limit the local rate_limit variable aliases. -/
def setLimitRA (st : HTTPState) (k : String) (ra : PyScalar) : HTTPState :=
  { st with rate_limits :=
      adjustLimit st.rate_limits k (fun rl => { rl with reset_after := ra }) }

/-- Mutation of the event slot of the stored _Limit under a key. -/
def setLimitEvent (st : HTTPState) (k : String) (e : EventObj) : HTTPState :=
  { st with rate_limits :=
      adjustLimit st.rate_limits k (fun rl => { rl with event := e }) }

/-- Mutation of the global limit's reset_after (http.py:258). -/
def setGlobalRA (st : HTTPState) (ra : PyScalar) : HTTPState :=
  { st with global_rate_limit :=
      st.global_rate_limit.map (fun g => { g with reset_after := ra }) }

/-- The body of one iteration of the retry loop of HTTPClient.request
(http.py:222-284), after the httpx call site was reached with outcome out.
Returns inl (state, actions after the call, updated local reset_after) when
the iteration ends in a swallowed exception and the loop continues, and
inr (state, actions after the call, returned json) when it returns.

idx is the 0-based loop variable attempt. rlKey is the key of the stored
_Limit the local rate_limit variable aliases; it is none when the bucket was
only created in this call (http.py:219 stores a fresh _Limit in the dict but
does not rebind the local, which stays None). raLoc is the local variable
reset_after, bound only once a 429 response has been seen by this call.

Walkthrough of the Python, in order: the debug f-string formats the route
(AttributeError from __repr__, swallowed by the blanket except Exception);
the second debug line calls loads on the parsed body (TypeError for non-str
bodies, swallowed); a body dict with a truthy errors key raises
HTTPException, swallowed by the same blanket except; a 429 stores the
reset-after header into the global limit (global flag set; the following
_Limit.set() call raises AttributeError since _Limit has no such method,
swallowed) or into the aliased bucket limit (no global flag; through a None
alias this raises AttributeError, and event.set() through the class object
raises TypeError, each swallowed); a response without the remaining header
compares the default 0 equal to 0 and then formats reset_after (NameError if
unbound, swallowed) and awaits sleep_until on it (TypeError on a string,
swallowed; an actual wait on a number); finally return json. -/
def reqIterTail (loadsStr : String → Except PyExc Json) (route : Route)
    (out : TranspOut) (idx : Nat) (st : HTTPState) (rlKey : Option String)
    (raLoc : Option PyScalar) :
    (HTTPState × List ReqAct × Option PyScalar) ⊕ (HTTPState × List ReqAct × Json) :=
  match out with
  | .raised e =>
    match e with
    | .osError errno =>
      if idx < 2 ∧ (errno = 54 ∨ errno = 10054) then
        .inl (st, [.sleepUntil 5], raLoc)
      else
        .inl (st, [], raLoc)
    | _ => .inl (st, [], raLoc)
  | .resp resp =>
    let json := resp.body
    match routeRepr route with
    | .error _ => .inl (st, [], raLoc)
    | .ok _ =>
      match pyLoads loadsStr json with
      | .error _ => .inl (st, [], raLoc)
      | .ok _ =>
        if dictTruthyKey json "errors" then
          .inl (st, [], raLoc)
        else
          let remCheck := fun (st' : HTTPState) (raLoc' : Option PyScalar) =>
            (match resp.headers.remaining with
             | some _ => .inr (st', [], json)
             | none =>
               match raLoc' with
               | none => .inl (st', [], none)
               | some (.str s) => .inl (st', [], some (.str s))
               | some (.num q) => .inr (st', [ReqAct.sleepUntil q], json) :
              (HTTPState × List ReqAct × Option PyScalar) ⊕ (HTTPState × List ReqAct × Json))
          if resp.status = 429 then
            let ra := resetAfterHeader resp.headers
            if pyBoolHeader resp.headers.globalFlag then
              .inl (setGlobalRA st ra, [], some ra)
            else
              match rlKey with
              | none => .inl (st, [], some ra)
              | some k =>
                match lookupLimit st.rate_limits k with
                | none => .inl (st, [], some ra)
                | some rl =>
                  let st1 := setLimitRA st k ra
                  match rl.event.setEval with
                  | .error _ => .inl (st1, [], some ra)
                  | .ok ev => remCheck (setLimitEvent st1 k ev) (some ra)
          else
            remCheck st raLoc

/-- The retry loop of HTTPClient.request: fuel is the number of attempts
remaining (3 by default), idx the loop variable; falling off the loop end
returns None. Each iteration reaches the httpx call site first and then runs
the iteration body on its outcome. -/
def reqLoop (loadsStr : String → Except PyExc Json) (route : Route)
    (payload : Json) (responses : Nat → TranspOut) :
    Nat → Nat → HTTPState → Option String → Option PyScalar → ReqResult
  | 0, _, st, _, _ => ⟨st, [], .retNone⟩
  | fuel + 1, idx, st, rlKey, raLoc =>
    match reqIterTail loadsStr route (responses idx) idx st rlKey raLoc with
    | .inr (st', acts, j) =>
      ⟨st', .transport route payload :: acts, .retJson j⟩
    | .inl (st', acts, raLoc') =>
      let r := reqLoop loadsStr route payload responses fuel (idx + 1) st' rlKey raLoc'
      ⟨r.state, .transport route payload :: acts ++ r.trace, r.outcome⟩

/-- The bucket gate of HTTPClient.request (http.py:204-219) followed by the
retry loop, all still outside any try: an existing _Limit for the bucket
path goes through event.is_set(), a TypeError on the class object stored by
the _Limit default; a set event with nonzero reset_after proceeds to
event.wait(reset_after), a TypeError since trio.Event.wait takes no
argument; a zero reset_after replaces the event with a fresh unset
instance. When the key is new, a fresh _Limit is stored in the dict without
rebinding the local rate_limit variable, which stays None (hence rlKey none
in the loop). Exceptions here escape to the caller. -/
def bucketGate (loadsStr : String → Except PyExc Json) (route : Route)
    (payload : Json) (responses : Nat → TranspOut) (n : Nat)
    (st1 : HTTPState) (bucket_path : String) : ReqResult :=
  match lookupLimit st1.rate_limits bucket_path with
  | some rl =>
    match rl.event.isSetEval with
    | .error _ => ⟨st1, [], .raises .typeError⟩
    | .ok rset =>
      if rset && rl.reset_after.neZero then
        ⟨st1, [], .raises .typeError⟩
      else
        reqLoop loadsStr route payload responses n 0
          (if rl.reset_after.eqZero then setLimitEvent st1 bucket_path (.inst false)
           else st1)
          (some bucket_path) none
  | none =>
    reqLoop loadsStr route payload responses n 0
      { st1 with rate_limits := setLimit st1.rate_limits bucket_path freshLimit }
      none none

/-- HTTPClient.request (http.py:171), the part before bucketGate, all
outside any try, so every raise here escapes to the caller.

Global gate (http.py:195-202): the read of self._global_rate_limit, which
__init__ never binds — an AttributeError on the very first use; through a
bound limit, event.is_set() raises TypeError on the class object; a set
event with nonzero reset_after proceeds to event.wait(reset_after), a
TypeError since trio.Event.wait takes no argument; a zero reset_after
replaces the event with a fresh unset instance.

Bucket key (http.py:204): route.get_bucket(self._buckets.get(route)) — the
dict.get call hashes the unhashable _Route key and raises TypeError, so
bucketGate and the retry loop are never reached on any input; the ok branch
embeds what would follow. retries is the keyword argument, MISSING (none)
meaning 3. -/
def request (loadsStr : String → Except PyExc Json) (st : HTTPState)
    (route : Route) (payload : Json) (retries : Option Int)
    (responses : Nat → TranspOut) : ReqResult :=
  match st.global_rate_limit with
  | none => ⟨st, [], .raises .attributeError⟩
  | some g =>
    match g.event.isSetEval with
    | .error _ => ⟨st, [], .raises .typeError⟩
    | .ok gset =>
      if gset && g.reset_after.neZero then
        ⟨st, [], .raises .typeError⟩
      else
        let st1 :=
          if g.reset_after.eqZero then
            { st with global_rate_limit := some { g with event := .inst false } }
          else st
        match bucketsGet st1.buckets route with
        | .error _ => ⟨st1, [], .raises .typeError⟩
        | .ok shared =>
          bucketGate loadsStr route payload responses
            ((match retries with | none => (3 : Int) | some k => k).toNat)
            st1 (Route.get_bucket route (sharedArgOf shared))

/-- C10: for every client fresh from __init__ and every route, payload,
retry count and transport behavior, request raises AttributeError at its
very first statement, the global rate-limit check, because the
_global_rate_limit attribute is annotated but never bound. The failure is
outside the try of the retry loop, escapes to the caller, the action trace
is empty (no transport call is issued), and the state is returned unchanged,
so no later call fares better. -/
theorem request_global_attrerror (token : String) (route : Route)
    (payload : Json) (retries : Option Int) (responses : Nat → TranspOut)
    (loadsStr : String → Except PyExc Json) :
    request loadsStr (initHTTPState token) route payload retries responses
      = { state := initHTTPState token, trace := []
        , outcome := .raises .attributeError } := rfl

/-- Concrete inputs for the REST evaluation theorems. -/
def routeMsgs : Route := { method := .get, path := "channels/1/messages" }

def payloadEmpty : Json := .obj []

def responses200 : Nat → TranspOut := fun _ =>
  .resp { status := 200, body := .obj [("id", .str "1")]
        , headers := { remaining := some "5" } }

/-- Environment for json.loads on string bodies; no analysed execution
consults it (every analysed body is a dict). -/
def loadsStrFail : String → Except PyExc Json := fun _ => .error .jsonDecodeError

/-- A global rate-limit state as it would look after proper initialization:
an unset event instance with zero reset_after. -/
def readyGlobal : HttpLimit := { event := .inst false, reset_after := .num 0 }

/-- A state whose global rate limit has been initialized externally. -/
def wState : HTTPState :=
  { token := "bot-token", global_rate_limit := some readyGlobal }

/-- C6: the claim says the first use of a never-seen bucket reaches the
underlying transport call without any rate-limit wait. In fact no request
ever reaches the transport call: on a client fresh from __init__ (no bucket
state, no active global limit) the unbound _global_rate_limit raises
AttributeError at the global gate, and even on a client whose global limit
has been initialized, the bucket lookup self._buckets.get(route) raises
TypeError — the _Route key is unhashable because attrs generated its eq
without frozen — in both cases before any transport call and without any
wait, with the action trace empty. -/
theorem first_use_raises_eval :
    request loadsStrFail (initHTTPState "bot-token") routeMsgs payloadEmpty
        none responses200
      = { state := initHTTPState "bot-token", trace := []
        , outcome := .raises .attributeError }
      ∧ request loadsStrFail wState routeMsgs payloadEmpty none responses200
        = { state := wState, trace := [], outcome := .raises .typeError } :=
  ⟨rfl, rfl⟩

/-- The failing input for C7: a 429 response flagged global with a
reset-after of 5 seconds and a dict body, as Discord sends it. -/
def resp429G : HttpResp :=
  { status := 429
  , body := .obj [ ("message", .str "You are being rate limited.")
                 , ("retry_after", .num 5) ]
  , headers := { remaining := some "0", resetAfter := some "5"
               , globalFlag := some "true" } }

/-- C7: the claim says a global 429 makes every subsequent request wait out
reset_after, and a non-global 429 blocks the originating bucket. On the
initialized client the premise can never even arise, and the conclusion
fails too: every request — on any route, with any payload, retry count and
transport behavior, including one whose transport would answer the global
429 of the failing input — raises TypeError at the bucket lookup
(unhashable _Route dict key, http.py:204) before the retry loop, with no
transport call and no wait, and leaves the global limit in its unblocked
state; so a subsequent request on any route never waits either. The second
conjunct instantiates the failing input concretely. -/
theorem global_429_never_blocks_eval (loadsStr : String → Except PyExc Json)
    (route : Route) (payload : Json) (retries : Option Int)
    (responses : Nat → TranspOut) :
    request loadsStr wState route payload retries responses
      = { state := wState, trace := [], outcome := .raises .typeError }
      ∧ request loadsStr wState routeMsgs payloadEmpty none
          (fun _ => .resp resp429G)
        = { state := wState, trace := [], outcome := .raises .typeError } :=
  ⟨rfl, rfl⟩

